import Mathlib

/-!
Verification of the casper-node reactor core specification against the source.

Shallow embedding of:
- `src/node/src/reactor/participating/error.rs` (the reactor `Error` enum),
- `src/node/src/app/cli.rs` (`ConfigExt::update_toml_table`, `parse_toml_value`,
  and the Initializer-to-Validator handoff in `Cli::run`),
- `src/smart_contracts/contract/src/contract_api/system.rs`
  (`get_purse_balance`, `get_balance`).

Parts of the repository the claims depend on but which are not in the sampled
source corpus (the Runner event loop, the genesis/upgrade decision procedures,
the block types) are modelled from the specification; each such definition says
so in its doc comment.
-/

namespace CasperNode

/-! ## Block data model

Modelled from the spec, section 3: `BlockHeader`/`Block` are persisted consensus
artifacts; a header carries a height, an era id, a timestamp and the "switch
block" flag marking an era boundary.  The concrete Rust types live in
`node/src/types/block.rs`, which is not part of the sampled corpus. -/

/-- Era identifier (`casper_types::EraId`), a wrapped `u64`. -/
structure EraId where
  value : Nat
deriving DecidableEq, Repr

/-- Modelled from the spec: a block header with the fields the claims inspect
(height, era, timestamp, switch-block flag). -/
structure BlockHeader where
  height : Nat
  era_id : EraId
  timestamp : Nat
  is_switch_block : Bool
deriving DecidableEq, Repr

/-- Modelled from the spec: a block is its header plus an opaque body. -/
structure Block where
  header : BlockHeader
  body_hash : Nat
deriving DecidableEq, Repr

/-! ## Component error payload types

The reactor `Error` enum in `error.rs` wraps error types owned by other crates
or modules (`prometheus::Error`, `network::Error`, ...).  Those types are
external to the sampled corpus; each is embedded as an opaque payload carrying
a code, which is all the reactor error type does with them (it stores them
unchanged as the `#[from]` source). -/

structure PrometheusError where
  code : Nat
deriving DecidableEq, Repr

structure NetworkError where
  code : Nat
deriving DecidableEq, Repr

structure SmallNetworkError where
  code : Nat
deriving DecidableEq, Repr

structure ListeningError where
  code : Nat
deriving DecidableEq, Repr

structure StorageError where
  code : Nat
deriving DecidableEq, Repr

/-- `anyhow::Error`, the payload of the `Consensus` variant. -/
structure AnyhowError where
  msg : String
deriving DecidableEq, Repr

structure ContractRuntimeConfigError where
  code : Nat
deriving DecidableEq, Repr

structure BincodeErrorKind where
  code : Nat
deriving DecidableEq, Repr

structure EngineStateError where
  code : Nat
deriving DecidableEq, Repr

structure BlockExecutionError where
  code : Nat
deriving DecidableEq, Repr

structure BytesreprError where
  code : Nat
deriving DecidableEq, Repr

/-! ## The reactor error taxonomy

Direct embedding of `enum Error` from
`src/node/src/reactor/participating/error.rs`, one constructor per variant,
payloads as in the source. -/

/-- Error type returned by the validator reactor
(`participating::error::Error`). -/
inductive Error where
  /-- Metrics-related error. -/
  | metrics (e : PrometheusError)
  /-- `Network` component error. -/
  | network (e : NetworkError)
  /-- `SmallNetwork` component error. -/
  | smallNetwork (e : SmallNetworkError)
  /-- An error starting one of the HTTP servers. -/
  | listeningError (e : ListeningError)
  /-- `Storage` component error. -/
  | storage (e : StorageError)
  /-- `Consensus` component error. -/
  | consensus (e : AnyhowError)
  /-- `ContractRuntime` component error. -/
  | contractRuntime (e : ContractRuntimeConfigError)
  /-- Failed to serialize data. -/
  | serialization (e : BincodeErrorKind)
  /-- Engine state error. -/
  | engineState (e : EngineStateError)
  /-- Block execution error. -/
  | blockExecutionError (e : BlockExecutionError)
  /-- `bytesrepr` error. -/
  | bytesReprError (e : BytesreprError)
  /-- Cannot run genesis on pre-existing blockchain. -/
  | cannotRunGenesisOnPreExistingBlockchain (first_block_header : BlockHeader)
  /-- No such switch block for upgrade era. -/
  | noSuchSwitchBlockHeaderForUpgradeEra (upgrade_era_id : EraId)
  /-- Non-emergency upgrade will clobber existing blockchain. -/
  | nonEmergencyUpgradeWillClobberExistingBlockChain
      (preexisting_block_header : BlockHeader)
  /-- Failed to create a switch block immediately after genesis or upgrade. -/
  | failedToCreateSwitchBlockAfterGenesisOrUpgrade (new_bad_block : Block)
deriving DecidableEq, Repr

/-- The kind (variant tag) of a reactor error, used to state that each
component maps to exactly one reactor-level error kind. -/
inductive ErrorKind where
  | metrics
  | network
  | smallNetwork
  | listeningError
  | storage
  | consensus
  | contractRuntime
  | serialization
  | engineState
  | blockExecutionError
  | bytesReprError
  | cannotRunGenesisOnPreExistingBlockchain
  | noSuchSwitchBlockHeaderForUpgradeEra
  | nonEmergencyUpgradeWillClobberExistingBlockChain
  | failedToCreateSwitchBlockAfterGenesisOrUpgrade
deriving DecidableEq, Repr

/-- Numeric tag of an error kind, in source declaration order. -/
def ErrorKind.tag : ErrorKind → Nat
  | .metrics => 0
  | .network => 1
  | .smallNetwork => 2
  | .listeningError => 3
  | .storage => 4
  | .consensus => 5
  | .contractRuntime => 6
  | .serialization => 7
  | .engineState => 8
  | .blockExecutionError => 9
  | .bytesReprError => 10
  | .cannotRunGenesisOnPreExistingBlockchain => 11
  | .noSuchSwitchBlockHeaderForUpgradeEra => 12
  | .nonEmergencyUpgradeWillClobberExistingBlockChain => 13
  | .failedToCreateSwitchBlockAfterGenesisOrUpgrade => 14

/-- The kind of a reactor error value. -/
def Error.kind : Error → ErrorKind
  | .metrics _ => .metrics
  | .network _ => .network
  | .smallNetwork _ => .smallNetwork
  | .listeningError _ => .listeningError
  | .storage _ => .storage
  | .consensus _ => .consensus
  | .contractRuntime _ => .contractRuntime
  | .serialization _ => .serialization
  | .engineState _ => .engineState
  | .blockExecutionError _ => .blockExecutionError
  | .bytesReprError _ => .bytesReprError
  | .cannotRunGenesisOnPreExistingBlockchain _ =>
      .cannotRunGenesisOnPreExistingBlockchain
  | .noSuchSwitchBlockHeaderForUpgradeEra _ =>
      .noSuchSwitchBlockHeaderForUpgradeEra
  | .nonEmergencyUpgradeWillClobberExistingBlockChain _ =>
      .nonEmergencyUpgradeWillClobberExistingBlockChain
  | .failedToCreateSwitchBlockAfterGenesisOrUpgrade _ =>
      .failedToCreateSwitchBlockAfterGenesisOrUpgrade

/-! ## `#[from]` conversions

Each `#[from]` attribute on a variant of `enum Error` generates an
`impl From<Source> for Error` wrapping the source error unchanged.  These are
those conversions, one per component-origin variant. -/

def Error.from_prometheus (e : PrometheusError) : Error := .metrics e

def Error.from_network (e : NetworkError) : Error := .network e

def Error.from_small_network (e : SmallNetworkError) : Error := .smallNetwork e

def Error.from_listening (e : ListeningError) : Error := .listeningError e

def Error.from_storage (e : StorageError) : Error := .storage e

def Error.from_anyhow (e : AnyhowError) : Error := .consensus e

def Error.from_contract_runtime (e : ContractRuntimeConfigError) : Error :=
  .contractRuntime e

/-! Cause projections: recover the wrapped component error from a reactor
error, witnessing that wrapping preserves the original cause. -/

def Error.networkCause : Error → Option NetworkError
  | .network e => some e
  | _ => none

def Error.smallNetworkCause : Error → Option SmallNetworkError
  | .smallNetwork e => some e
  | _ => none

def Error.listeningCause : Error → Option ListeningError
  | .listeningError e => some e
  | _ => none

def Error.storageCause : Error → Option StorageError
  | .storage e => some e
  | _ => none

def Error.consensusCause : Error → Option AnyhowError
  | .consensus e => some e
  | _ => none

def Error.contractRuntimeCause : Error → Option ContractRuntimeConfigError
  | .contractRuntime e => some e
  | _ => none

/-! ## Fatality classification

Modelled from the spec, section 7: invariant-violation errors are fatal and
non-retryable, component-origin errors that reach the reactor escalate as
fatal, while metrics/observability-setup errors are surfaced but non-fatal
where possible.  The runner-loop code that consumes this classification is not
part of the sampled corpus. -/

/-- Modelled from the spec: whether a reactor error terminates the Runner's
loop.  Every kind except metrics is fatal; metrics errors are surfaced but
non-fatal. -/
def Error.isFatal : Error → Bool
  | .metrics _ => false
  | _ => true

/-- Modelled from the spec: the invariant-violation error kinds
(genesis-on-existing-chain, upgrade-era switch block missing, non-emergency
upgrade clobbering history, missing switch block after genesis/upgrade). -/
def Error.isInvariantViolation : Error → Bool
  | .cannotRunGenesisOnPreExistingBlockchain _ => true
  | .noSuchSwitchBlockHeaderForUpgradeEra _ => true
  | .nonEmergencyUpgradeWillClobberExistingBlockChain _ => true
  | .failedToCreateSwitchBlockAfterGenesisOrUpgrade _ => true
  | _ => false

/-- Modelled from the spec: whether an error is handled as a recoverable,
component-local condition.  Spec section 7: recoverable conditions are handled
inside the component and never escalate to the reactor error type, so no
reactor-level `Error` value is recoverable. -/
def Error.isRecoverableComponentLocal : Error → Bool := fun _ => false

/-! ## Runner loop reaction to raised errors

Modelled from the spec, sections 4.4 and 7: the Runner loop terminates when a
fatal error is raised and keeps running when a non-fatal error is surfaced.
The Rust Runner (`node/src/reactor.rs`) is not part of the sampled corpus. -/

/-- Modelled from the spec: the observable state of a Runner loop — whether it
is still running and which errors it has surfaced (logged/reported). -/
structure LoopState where
  running : Bool
  surfaced : List Error
deriving DecidableEq, Repr

/-- Modelled from the spec: a component raises an error against the Runner
loop.  The error is always surfaced; the loop terminates exactly when the
error is fatal. -/
def raiseError (s : LoopState) (e : Error) : LoopState :=
  if e.isFatal then { running := false, surfaced := s.surfaced ++ [e] }
  else { s with surfaced := s.surfaced ++ [e] }

/-! ## Genesis / upgrade / switch-block decision procedures

Modelled from the spec, section 4.5 (the error variants are declared in
`error.rs`, in the corpus; the code raising them, in the contract-runtime and
participating reactor, is not). -/

/-- Modelled from the spec: running genesis against storage.  Genesis against
a non-empty existing chain is rejected outright with
`CannotRunGenesisOnPreExistingBlockchain` carrying the first block's header;
an empty store succeeds. -/
def runGenesis (storedBlocks : List Block) : Except Error Unit :=
  match storedBlocks with
  | [] => .ok ()
  | first_block :: _ =>
      .error (.cannotRunGenesisOnPreExistingBlockchain first_block.header)

/-- Modelled from the spec: applying an upgrade over existing chain history.
A non-emergency upgrade over a chain already containing a block dated after
the upgrade's activation point is rejected with
`NonEmergencyUpgradeWillClobberExistingBlockChain` carrying that preexisting
header; an emergency upgrade is permitted over existing history. -/
def runUpgrade (emergency : Bool) (activation_point : Nat)
    (storedHeaders : List BlockHeader) : Except Error Unit :=
  if emergency then .ok ()
  else
    match storedHeaders.find? (fun h => decide (activation_point < h.timestamp)) with
    | some h => .error (.nonEmergencyUpgradeWillClobberExistingBlockChain h)
    | none => .ok ()

/-- Modelled from the spec: the block produced immediately after a successful
genesis or upgrade must be flagged as a switch block; a non-switch block
yields `FailedToCreateSwitchBlockAfterGenesisOrUpgrade` carrying that block. -/
def checkSwitchBlockAfterGenesisOrUpgrade (new_block : Block) :
    Except Error Block :=
  if new_block.header.is_switch_block then .ok new_block
  else .error (.failedToCreateSwitchBlockAfterGenesisOrUpgrade new_block)

/-! ## TOML values (`toml::Value`)

Embedding of the `toml` crate's `Value` type used by `cli.rs`.  A table is a
map from strings to values, embedded as an association list with a
replace-in-place insert (keyed lookup/insert is all `update_toml_table`
uses).  The float and datetime payloads are opaque to every operation in the
corpus and are carried as strings. -/

inductive TomlValue where
  | string (s : String)
  | integer (i : Int)
  | float (repr_ : String)
  | boolean (b : Bool)
  | datetime (repr_ : String)
  | array (values : List TomlValue)
  | table (entries : List (String × TomlValue))

/-- `Map::contains_key` on a TOML table. -/
def tableContains (t : List (String × TomlValue)) (k : String) : Bool :=
  t.any (fun p => p.1 == k)

/-- Keyed lookup on a TOML table (`table[key]` / `Map::get`). -/
def tableGet (t : List (String × TomlValue)) (k : String) : Option TomlValue :=
  match t with
  | [] => none
  | (k', v') :: rest => if k' == k then some v' else tableGet rest k

/-- `Map::insert` on a TOML table: replace in place if the key is present,
append otherwise. -/
def tableInsert (t : List (String × TomlValue)) (k : String) (v : TomlValue) :
    List (String × TomlValue) :=
  match t with
  | [] => [(k, v)]
  | (k', v') :: rest =>
      if k' == k then (k, v) :: rest else (k', v') :: tableInsert rest k v

/-! ## `ConfigExt` and TOML-value parsing (`src/node/src/app/cli.rs`) -/

/-- Command line extension to be applied to TOML-based config file values
(`struct ConfigExt`; the field `section` is renamed `sectionName` because
`section` is a Lean keyword). -/
structure ConfigExt where
  sectionName : String
  key : String
  value : String
deriving DecidableEq, Repr

/-- Rust `i64::from_str`: an optional sign followed by one or more ASCII
digits, rejecting values outside the `i64` range. -/
def parseI64 (s : String) : Option Int :=
  let chars := s.toList
  let signDigits : Int × List Char :=
    match chars with
    | '+' :: rest => (1, rest)
    | '-' :: rest => (-1, rest)
    | _ => (1, chars)
  let sign := signDigits.1
  let digits := signDigits.2
  if digits.isEmpty then none
  else if digits.all Char.isDigit then
    let magnitude : Nat :=
      digits.foldl (fun acc c => acc * 10 + (c.toNat - '0'.toNat)) 0
    let v : Int := sign * magnitude
    if -(2 ^ 63) ≤ v ∧ v < 2 ^ 63 then some v else none
  else none

/-- Rust `bool::from_str`: exactly the strings `true` and `false`. -/
def parseRustBool (s : String) : Option Bool :=
  if s == "true" then some true
  else if s == "false" then some false
  else none

/-- Convenience function to parse values passed via command line into
appropriate `toml::Value` representations (`parse_toml_value` in `cli.rs`):
try `i64`, then `bool`, else keep the raw string. -/
def parse_toml_value (raw : String) : TomlValue :=
  match parseI64 raw with
  | some value => .integer value
  | none =>
      match parseRustBool raw with
      | some value => .boolean value
      | none => .string raw

/-- Updates TOML table with updated or extended key value pairs
(`ConfigExt::update_toml_table`).  The Rust function mutates `toml_value` in
place and returns `Option<()>`; the embedding returns the `Option<()>` result
together with the final state of `toml_value`. -/
def ConfigExt.update_toml_table (self : ConfigExt) (toml_value : TomlValue) :
    Option Unit × TomlValue :=
  match toml_value with
  | .table t =>
      let t1 :=
        if !tableContains t self.sectionName then
          tableInsert t self.sectionName (.table [])
        else t
      let val := parse_toml_value self.value
      match tableGet t1 self.sectionName with
      | some (.table sec) =>
          (some (),
           .table (tableInsert t1 self.sectionName
             (.table (tableInsert sec self.key val))))
      | _ => (none, .table t1)
  | v => (none, v)

/-! ## The Initializer-to-Validator handoff (`Cli::run`, `cli.rs` lines 212-230)

The `Runner`, `initializer::Reactor` and `validator::Reactor` types live in
code outside the sampled corpus; `Cli::run` uses them only through the calls
below, so they are abstracted as an interface.  The pseudo-random source is
passed by `&mut` in Rust; the embedding threads its state explicitly. -/

/-- The operations `Cli::run` performs on the reactor/runner machinery
(`Runner::<initializer::Reactor>::new`, `Runner::run`, `Runner::into_inner`,
`initializer::Reactor::stopped_successfully`,
`Runner::<validator::Reactor>::new`).  Fallible constructors return
`Except`; the `&mut rng` threading is explicit state passing. -/
structure ReactorInterface (Config InitRunner Init VRunner Rng E : Type) where
  initializerNew : Config → Rng → Except E (InitRunner × Rng)
  initializerRun : InitRunner → Rng → InitRunner × Rng
  into_inner : InitRunner → Init
  stopped_successfully : Init → Bool
  validatorNew : Init → Rng → Except E (VRunner × Rng)
  validatorRun : VRunner → Rng → VRunner × Rng

/-- The error result of `Cli::run`: either the `bail!` on failed
initialization, or a reactor error propagated by `?`. -/
inductive CliError (E : Type) where
  | failedInitCheck
  | reactorError (e : E)
deriving DecidableEq, Repr

/-- The outcome of the `Cli::Validator` branch of `Cli::run`: the returned
`anyhow::Result<()>`, plus the observable record of whether
`Runner::<validator::Reactor>::new` was invoked and, if so, with which
consumed Initializer value and which pseudo-random-source state. -/
structure CliRunOutcome (Init Rng E : Type) where
  result : Except (CliError E) Unit
  validatorConstruction : Option (Init × Rng)

/-- The `Cli::Validator` branch of `Cli::run` after configuration loading:
build and run the Initializer runner, extract the reactor with `into_inner`,
`bail!` if `stopped_successfully()` is false, otherwise construct the
Validator runner from the consumed Initializer and the same rng, and run
it. -/
def cliRunValidatorCommand {Config InitRunner Init VRunner Rng E : Type}
    (ri : ReactorInterface Config InitRunner Init VRunner Rng E)
    (validator_config : Config) (rng : Rng) : CliRunOutcome Init Rng E :=
  match ri.initializerNew validator_config rng with
  | .error e => ⟨.error (.reactorError e), none⟩
  | .ok (runner, rng1) =>
      let ranPair := ri.initializerRun runner rng1
      let initializer := ri.into_inner ranPair.1
      if !ri.stopped_successfully initializer then
        ⟨.error .failedInitCheck, none⟩
      else
        match ri.validatorNew initializer ranPair.2 with
        | .error e =>
            ⟨.error (.reactorError e), some (initializer, ranPair.2)⟩
        | .ok (vrunner, rng3) =>
            let _ranV := ri.validatorRun vrunner rng3
            ⟨.ok (), some (initializer, ranPair.2)⟩

/-! ## The Runner event loop

Modelled from the spec, sections 4.4 and 5 (the Rust Runner lives outside the
sampled corpus): a single logical driver pulls Events one at a time in their
recorded arrival order, dispatches each against the Reactor state with the
pseudo-random source threaded by exclusive reference, and collects the
returned Effects.  `dispatch` is the Reactor's routing step:
state and rng in, new state, new rng state and requested effects out. -/

/-- Modelled from the spec: the sequence of Effects produced by one run of a
Runner over a recorded Event-arrival order, with the pseudo-random source
state threaded through every dispatch. -/
def runLoop {S Rng Event Effect : Type}
    (dispatch : S → Rng → Event → S × Rng × List Effect) :
    S → Rng → List Event → List Effect
  | _, _, [] => []
  | s, rng, ev :: evs =>
      let step := dispatch s rng ev
      step.2.2 ++ runLoop dispatch step.1 step.2.1 evs

/-- A mark in the dispatch trace of a Runner: the driver begins dispatching an
Event, or finishes dispatching it (its state mutation is complete). -/
inductive DispatchMark (Event : Type) where
  | start (e : Event)
  | finish (e : Event)
deriving DecidableEq, Repr

/-- Modelled from the spec: the dispatch trace of one run of the Runner's
driver over a recorded Event-arrival order.  Each Event's dispatch is bracketed
by a start mark and a finish mark. -/
def runTrace {S Rng Event Effect : Type}
    (dispatch : S → Rng → Event → S × Rng × List Effect) :
    S → Rng → List Event → List (DispatchMark Event)
  | _, _, [] => []
  | s, rng, ev :: evs =>
      let step := dispatch s rng ev
      .start ev :: .finish ev :: runTrace dispatch step.1 step.2.1 evs

/-- The Events a dispatch trace started dispatching, in trace order. -/
def startedEvents {Event : Type} : List (DispatchMark Event) → List Event
  | [] => []
  | .start e :: rest => e :: startedEvents rest
  | .finish _ :: rest => startedEvents rest

/-- A trace is sequential when every dispatch runs to completion before the
next one begins: it is a sequence of adjacent start/finish pairs, never two
overlapping dispatches. -/
inductive SequentialTrace {Event : Type} : List (DispatchMark Event) → Prop
  | nil : SequentialTrace []
  | cons (e : Event) (rest : List (DispatchMark Event)) :
      SequentialTrace rest →
      SequentialTrace (.start e :: .finish e :: rest)

/-! ## Purse balance queries
(`src/smart_contracts/contract/src/contract_api/system.rs`)

The host side of the FFI (`ext_ffi::casper_get_balance`,
`runtime::read_host_buffer`, `bytesrepr::deserialize`,
`account::get_main_purse`) is external to the corpus and is abstracted as an
interface; `api_error::result_from` and `unwrap_or_revert` are already folded
into its `Except ApiError` result types.  `runtime::revert` diverges, so the
embedding returns an explicit outcome: a value returned to the caller, or a
revert carrying the `ApiError`. -/

/-- An unforgeable reference to a purse (`casper_types::URef`), opaque to the
functions in the corpus. -/
structure URef where
  addr : Nat
deriving DecidableEq, Repr

/-- An unsigned 512-bit balance in motes (`casper_types::U512`); the corpus
only moves values of this type around, so the payload is a bare natural. -/
structure U512 where
  value : Nat
deriving DecidableEq, Repr

/-- The host API error (`casper_types::ApiError`).  The corpus distinguishes
exactly `InvalidPurse` from every other error code. -/
inductive ApiError where
  | invalidPurse
  | otherError (code : Nat)
deriving DecidableEq, Repr

/-- The outcome of a contract-API call: a value returned to the WASM caller,
or a `runtime::revert` (divergence) carrying an `ApiError`. -/
inductive CallOutcome (α : Type) where
  | returned (a : α)
  | reverted (e : ApiError)
deriving DecidableEq, Repr

/-- The host functions `get_purse_balance`/`get_balance` call through the FFI
boundary: `casper_get_balance` (its return code already decoded by
`api_error::result_from` into `Ok(value_size)` or `Err(api_error)`),
`read_host_buffer`, `bytesrepr::deserialize` for `U512` (its `bytesrepr`
error already converted to `ApiError` as `unwrap_or_revert` does), and
`account::get_main_purse`. -/
structure BalanceHost where
  casper_get_balance : URef → Except ApiError Nat
  read_host_buffer : Nat → Except ApiError (List Nat)
  deserializeU512 : List Nat → Except ApiError U512
  get_main_purse : URef

/-- Returns the balance in motes of the given purse (`get_purse_balance`):
`None` when the host reports `ApiError::InvalidPurse`, revert on any other
host error (including buffer read and deserialization failures), otherwise
`Some` of the deserialized balance. -/
def get_purse_balance (host : BalanceHost) (purse : URef) :
    CallOutcome (Option U512) :=
  match host.casper_get_balance purse with
  | .error .invalidPurse => .returned none
  | .error e => .reverted e
  | .ok value_size =>
      match host.read_host_buffer value_size with
      | .error e => .reverted e
      | .ok value_bytes =>
          match host.deserializeU512 value_bytes with
          | .error e => .reverted e
          | .ok value => .returned (some value)

/-- Returns the balance in motes of a purse (`get_balance`): the balance of
the account's main purse. -/
def get_balance (host : BalanceHost) : CallOutcome (Option U512) :=
  get_purse_balance host host.get_main_purse

/-! ## Concrete fixtures

Closed values used to evaluate the theorems below on concrete inputs. -/

/-- A concrete non-switch block header with height 1, era 0, timestamp 100. -/
def hdr0 : BlockHeader := ⟨1, ⟨0⟩, 100, false⟩

/-- A concrete block with a non-switch header. -/
def blk0 : Block := ⟨hdr0, 0⟩

/-- A reactor interface whose Initializer reaches a successful terminal state;
the rng state is a counter bumped by every call that takes `&mut rng`. -/
def riOk : ReactorInterface Unit Bool Bool Unit Nat Unit where
  initializerNew := fun _ r => .ok (true, r + 1)
  initializerRun := fun b r => (b, r + 1)
  into_inner := fun b => b
  stopped_successfully := fun b => b
  validatorNew := fun _ r => .ok ((), r + 1)
  validatorRun := fun v r => (v, r)

/-- A reactor interface whose Initializer stops unsuccessfully. -/
def riFail : ReactorInterface Unit Bool Bool Unit Nat Unit where
  initializerNew := fun _ r => .ok (false, r + 1)
  initializerRun := fun b r => (b, r + 1)
  into_inner := fun b => b
  stopped_successfully := fun b => b
  validatorNew := fun _ r => .ok ((), r + 1)
  validatorRun := fun v r => (v, r)

/-- A concrete dispatch function over natural-number state, rng, events and
effects. -/
def natDispatch : Nat → Nat → Nat → Nat × Nat × List Nat :=
  fun s r e => (s + e, r + 1, [s + r + e])

/-- A balance host that answers every query successfully with balance 42. -/
def hostOk : BalanceHost where
  casper_get_balance := fun _ => .ok 4
  read_host_buffer := fun n => .ok [n]
  deserializeU512 := fun _ => .ok ⟨42⟩
  get_main_purse := ⟨0⟩

/-- A balance host that reports `ApiError::InvalidPurse` for every purse. -/
def hostInvalid : BalanceHost where
  casper_get_balance := fun _ => .error .invalidPurse
  read_host_buffer := fun _ => .ok []
  deserializeU512 := fun _ => .ok ⟨0⟩
  get_main_purse := ⟨7⟩

/-- A concrete config-file override: `node.rpc=true`. -/
def extFix : ConfigExt := ⟨"node", "rpc", "true"⟩

/-- A TOML table whose `node` section is itself a table. -/
def tFix : List (String × TomlValue) :=
  [("node", .table [("x", .integer 1)]), ("log", .string "info")]

/-- The `node` section of `tFix`. -/
def innerFix : List (String × TomlValue) := [("x", .integer 1)]

/-- A TOML table whose `node` entry is not a table. -/
def tBad : List (String × TomlValue) := [("node", .integer 5)]

/-! ## Table lemmas -/

/-- Looking up a key right after inserting it yields the inserted value. -/
theorem tableGet_tableInsert_self (t : List (String × TomlValue)) (k : String)
    (v : TomlValue) : tableGet (tableInsert t k v) k = some v := by
  induction t with
  | nil => simp [tableInsert, tableGet]
  | cons p rest ih =>
      obtain ⟨k', v'⟩ := p
      by_cases h : k' == k
      · simp [tableInsert, tableGet, h]
      · simp [tableInsert, tableGet, h, ih]

/-- A successful lookup means the table contains the key. -/
theorem tableContains_of_tableGet (t : List (String × TomlValue)) (k : String)
    (w : TomlValue) (h : tableGet t k = some w) : tableContains t k = true := by
  induction t with
  | nil => simp [tableGet] at h
  | cons p rest ih =>
      obtain ⟨k', v'⟩ := p
      by_cases hk : k' == k
      · simp [tableContains, List.any_cons, hk]
      · simp [tableGet, hk] at h
        simp [tableContains, List.any_cons, hk]
        simpa [tableContains] using ih h

/-- Claim C9: `ConfigExt::update_toml_table` is atomic on failure.  It returns
`Some(())` exactly when the TOML value is a table whose entry for the section
(created as an empty table if absent) is itself a table, in which case the key
is set to the parsed value in that section; whenever it returns `None` (the
top-level value is not a table, or a pre-existing section entry is not a
table), the TOML value is left completely unchanged.  Stated as a complete
case analysis: section present as a table, section absent, top-level
non-table, and section present as a non-table. -/
theorem update_toml_table_atomic (ext : ConfigExt) (v : TomlValue)
    (t inner : List (String × TomlValue)) (w : TomlValue) :
    (tableGet t ext.sectionName = some (.table inner) →
      ext.update_toml_table (.table t) =
        (some (), .table (tableInsert t ext.sectionName
          (.table (tableInsert inner ext.key (parse_toml_value ext.value)))))) ∧
    (tableContains t ext.sectionName = false →
      ext.update_toml_table (.table t) =
        (some (), .table (tableInsert (tableInsert t ext.sectionName (.table []))
          ext.sectionName
          (.table (tableInsert [] ext.key (parse_toml_value ext.value)))))) ∧
    ((∀ u, v ≠ TomlValue.table u) →
      ext.update_toml_table v = (none, v)) ∧
    (tableGet t ext.sectionName = some w →
      (∀ u, w ≠ TomlValue.table u) →
      ext.update_toml_table (.table t) = (none, .table t)) := by
  refine ⟨?_, ?_, ?_, ?_⟩
  · intro h
    have hc := tableContains_of_tableGet t ext.sectionName _ h
    simp [ConfigExt.update_toml_table, hc, h]
  · intro hc
    simp [ConfigExt.update_toml_table, hc, tableGet_tableInsert_self]
  · intro h
    cases v with
    | table u => exact absurd rfl (h u)
    | string s => rfl
    | integer i => rfl
    | float f => rfl
    | boolean b => rfl
    | datetime d => rfl
    | array xs => rfl
  · intro h hw
    have hc := tableContains_of_tableGet t ext.sectionName _ h
    cases w with
    | table u => exact absurd rfl (hw u)
    | string s => simp [ConfigExt.update_toml_table, hc, h]
    | integer i => simp [ConfigExt.update_toml_table, hc, h]
    | float f => simp [ConfigExt.update_toml_table, hc, h]
    | boolean b => simp [ConfigExt.update_toml_table, hc, h]
    | datetime d => simp [ConfigExt.update_toml_table, hc, h]
    | array xs => simp [ConfigExt.update_toml_table, hc, h]

/-- Claim C9 witness: the four cases of `update_toml_table_atomic` evaluated
on concrete tables: section present as table, empty table (section absent),
non-table top level, and a non-table section entry. -/
theorem update_toml_table_atomic_witness :
    ConfigExt.update_toml_table extFix (.table tFix) =
      (some (), .table (tableInsert tFix "node"
        (.table (tableInsert innerFix "rpc" (parse_toml_value "true"))))) ∧
    ConfigExt.update_toml_table extFix (.table []) =
      (some (), .table (tableInsert (tableInsert [] "node" (.table [])) "node"
        (.table (tableInsert [] "rpc" (parse_toml_value "true"))))) ∧
    ConfigExt.update_toml_table extFix (.integer 3) = (none, .integer 3) ∧
    ConfigExt.update_toml_table extFix (.table tBad) = (none, .table tBad) := by
  refine ⟨?_, ?_, ?_, ?_⟩
  · exact (update_toml_table_atomic extFix (.integer 3) tFix innerFix
      (.integer 5)).1 rfl
  · exact (update_toml_table_atomic extFix (.integer 3) [] innerFix
      (.integer 5)).2.1 rfl
  · exact (update_toml_table_atomic extFix (.integer 3) tFix innerFix
      (.integer 5)).2.2.1 (fun u h => TomlValue.noConfusion h)
  · exact (update_toml_table_atomic extFix (.integer 3) tBad innerFix
      (.integer 5)).2.2.2 rfl (fun u h => TomlValue.noConfusion h)

/-! ## The Initializer-to-Validator handoff -/

/-- Claim C1: the Initializer-to-Validator handoff occurs if and only if
`stopped_successfully()` returns true on the Initializer reactor extracted via
`into_inner()`: when it is false, `Cli::run` returns an error and never
constructs a `Runner<Validator>`; when it is true,
`Runner::<validator::Reactor>::new` is called with the consumed Initializer
value and the same pseudo-random source state that drove the Initializer
phase. -/
theorem cli_run_handoff {Config InitRunner Init VRunner Rng E : Type}
    (ri : ReactorInterface Config InitRunner Init VRunner Rng E)
    (cfg : Config) (rng : Rng) (runner : InitRunner) (rng1 : Rng)
    (hnew : ri.initializerNew cfg rng = .ok (runner, rng1)) :
    ((cliRunValidatorCommand ri cfg rng).validatorConstruction.isSome =
      ri.stopped_successfully (ri.into_inner (ri.initializerRun runner rng1).1)) ∧
    (ri.stopped_successfully (ri.into_inner (ri.initializerRun runner rng1).1)
        = false →
      (cliRunValidatorCommand ri cfg rng).result = .error .failedInitCheck ∧
      (cliRunValidatorCommand ri cfg rng).validatorConstruction = none) ∧
    (ri.stopped_successfully (ri.into_inner (ri.initializerRun runner rng1).1)
        = true →
      (cliRunValidatorCommand ri cfg rng).validatorConstruction =
        some (ri.into_inner (ri.initializerRun runner rng1).1,
              (ri.initializerRun runner rng1).2)) := by
  cases hb : ri.stopped_successfully (ri.into_inner (ri.initializerRun runner rng1).1) with
  | false => simp [cliRunValidatorCommand, hnew, hb]
  | true =>
      cases hv : ri.validatorNew (ri.into_inner (ri.initializerRun runner rng1).1)
          (ri.initializerRun runner rng1).2 with
      | ok pr => simp [cliRunValidatorCommand, hnew, hb, hv]
      | error e => simp [cliRunValidatorCommand, hnew, hb, hv]

/-- Claim C1 witness: with a successfully-stopped Initializer the Validator
runner is constructed from the consumed Initializer value (`true`) and the
threaded rng state (`2`); with a failed Initializer `Cli::run` bails. -/
theorem cli_run_handoff_witness :
    (cliRunValidatorCommand riOk () 0).validatorConstruction = some (true, 2) ∧
    (cliRunValidatorCommand riFail () 0).result = .error .failedInitCheck := by
  constructor
  · exact (cli_run_handoff riOk () 0 true 1 rfl).2.2 rfl
  · exact ((cli_run_handoff riFail () 0 false 1 rfl).2.1 rfl).1

/-! ## Genesis / upgrade / switch-block invariants -/

/-- Claim C2: running genesis against a storage that already holds at least
one block fails with the fatal, non-retryable error kind
`CannotRunGenesisOnPreExistingBlockchain`, carrying the header of the chain's
first block. -/
theorem genesis_rejected_on_preexisting_chain (first_block : Block)
    (rest : List Block) :
    runGenesis (first_block :: rest) =
      .error (.cannotRunGenesisOnPreExistingBlockchain first_block.header) ∧
    (Error.cannotRunGenesisOnPreExistingBlockchain first_block.header).isFatal
      = true ∧
    (Error.cannotRunGenesisOnPreExistingBlockchain
      first_block.header).isInvariantViolation = true ∧
    (Error.cannotRunGenesisOnPreExistingBlockchain
      first_block.header).isRecoverableComponentLocal = false :=
  ⟨rfl, rfl, rfl, rfl⟩

/-- Claim C3: applying a non-emergency upgrade over a chain that already
contains a block dated after the upgrade's activation point fails with the
fatal error kind `NonEmergencyUpgradeWillClobberExistingBlockChain`, carrying
that preexisting block header (which indeed is in storage and is dated after
the activation point). -/
theorem upgrade_rejected_when_clobbering (activation_point : Nat)
    (storedHeaders : List BlockHeader) (h : BlockHeader)
    (hfind : storedHeaders.find?
      (fun hd => decide (activation_point < hd.timestamp)) = some h) :
    runUpgrade false activation_point storedHeaders =
      .error (.nonEmergencyUpgradeWillClobberExistingBlockChain h) ∧
    activation_point < h.timestamp ∧
    h ∈ storedHeaders ∧
    (Error.nonEmergencyUpgradeWillClobberExistingBlockChain h).isFatal = true ∧
    (Error.nonEmergencyUpgradeWillClobberExistingBlockChain
      h).isInvariantViolation = true := by
  refine ⟨?_, ?_, List.mem_of_find?_eq_some hfind, rfl, rfl⟩
  · simp [runUpgrade, hfind]
  · have hp := List.find?_some hfind
    exact of_decide_eq_true hp

/-- Claim C3 witness: a chain with a header at timestamp 100 rejects a
non-emergency upgrade activating at 50, carrying that header. -/
theorem upgrade_rejected_when_clobbering_witness :
    runUpgrade false 50 [hdr0] =
      .error (.nonEmergencyUpgradeWillClobberExistingBlockChain hdr0) :=
  (upgrade_rejected_when_clobbering 50 [hdr0] hdr0 rfl).1

/-- Claim C4: when the block produced immediately after a successful genesis
or upgrade is not flagged as a switch block, the system raises the fatal error
kind `FailedToCreateSwitchBlockAfterGenesisOrUpgrade` carrying that non-switch
block, treated as an internal invariant violation and never as a recoverable,
component-local condition. -/
theorem switch_block_invariant_violation (new_block : Block)
    (h : new_block.header.is_switch_block = false) :
    checkSwitchBlockAfterGenesisOrUpgrade new_block =
      .error (.failedToCreateSwitchBlockAfterGenesisOrUpgrade new_block) ∧
    (Error.failedToCreateSwitchBlockAfterGenesisOrUpgrade new_block).isFatal
      = true ∧
    (Error.failedToCreateSwitchBlockAfterGenesisOrUpgrade
      new_block).isInvariantViolation = true ∧
    (Error.failedToCreateSwitchBlockAfterGenesisOrUpgrade
      new_block).isRecoverableComponentLocal = false := by
  refine ⟨?_, rfl, rfl, rfl⟩
  simp [checkSwitchBlockAfterGenesisOrUpgrade, h]

/-- Claim C4 witness: the concrete non-switch block `blk0` is rejected. -/
theorem switch_block_invariant_violation_witness :
    checkSwitchBlockAfterGenesisOrUpgrade blk0 =
      .error (.failedToCreateSwitchBlockAfterGenesisOrUpgrade blk0) :=
  (switch_block_invariant_violation blk0 rfl).1

/-! ## Runner loop properties -/

/-- Claim C5: for a fixed pseudo-random seed and a fixed, recorded
event-arrival order, two independent runs of the same Reactor (same dispatch
function, same initial state) produce identical sequences of Effects. -/
theorem replay_determinism {S Rng Event Effect : Type}
    (dispatch : S → Rng → Event → S × Rng × List Effect) (s : S)
    (seed1 seed2 : Rng) (evs1 evs2 : List Event)
    (hseed : seed1 = seed2) (hevs : evs1 = evs2) :
    runLoop dispatch s seed1 evs1 = runLoop dispatch s seed2 evs2 := by
  subst hseed
  subst hevs
  rfl

/-- Claim C5 witness: two runs of the concrete dispatcher with equal seeds
(written differently) and equal recorded event orders coincide. -/
theorem replay_determinism_witness :
    runLoop natDispatch 0 7 [1, 2, 3] = runLoop natDispatch 0 (3 + 4) [1, 2, 3] :=
  replay_determinism natDispatch 0 7 (3 + 4) [1, 2, 3] [1, 2, 3] rfl rfl

/-- Claim C6: within one Runner, Events are dispatched strictly one at a time:
the dispatch trace is a sequence of adjacent start/finish pairs (no two
dispatches overlap in mutating the Reactor state), and the order of dispatched
Events equals the submission-availability order. -/
theorem dispatch_sequential {S Rng Event Effect : Type}
    (dispatch : S → Rng → Event → S × Rng × List Effect)
    (s : S) (rng : Rng) (evs : List Event) :
    SequentialTrace (runTrace dispatch s rng evs) ∧
    startedEvents (runTrace dispatch s rng evs) = evs := by
  induction evs generalizing s rng with
  | nil => exact ⟨.nil, rfl⟩
  | cons ev evs ih =>
      have h := ih (dispatch s rng ev).1 (dispatch s rng ev).2.1
      constructor
      · simpa [runTrace] using SequentialTrace.cons ev _ h.1
      · simp [runTrace, startedEvents, h.2]

/-! ## Error taxonomy properties -/

/-- Claim C7: every component-origin failure (Network, SmallNetwork, Storage,
Consensus, ContractRuntime, listening/transport-setup) is wrapped into exactly
one reactor-level error kind per component — the six kinds being pairwise
distinct — and the wrapping preserves the original underlying cause inside the
reactor-level error value. -/
theorem component_errors_wrapped :
    (∀ e, (Error.from_network e).kind = .network) ∧
    (∀ e, (Error.from_network e).networkCause = some e) ∧
    (∀ e, (Error.from_small_network e).kind = .smallNetwork) ∧
    (∀ e, (Error.from_small_network e).smallNetworkCause = some e) ∧
    (∀ e, (Error.from_listening e).kind = .listeningError) ∧
    (∀ e, (Error.from_listening e).listeningCause = some e) ∧
    (∀ e, (Error.from_storage e).kind = .storage) ∧
    (∀ e, (Error.from_storage e).storageCause = some e) ∧
    (∀ e, (Error.from_anyhow e).kind = .consensus) ∧
    (∀ e, (Error.from_anyhow e).consensusCause = some e) ∧
    (∀ e, (Error.from_contract_runtime e).kind = .contractRuntime) ∧
    (∀ e, (Error.from_contract_runtime e).contractRuntimeCause = some e) ∧
    ([ErrorKind.network, ErrorKind.smallNetwork, ErrorKind.listeningError,
      ErrorKind.storage, ErrorKind.consensus,
      ErrorKind.contractRuntime].map ErrorKind.tag = [1, 2, 3, 4, 5, 6]) :=
  ⟨fun _ => rfl, fun _ => rfl, fun _ => rfl, fun _ => rfl, fun _ => rfl,
   fun _ => rfl, fun _ => rfl, fun _ => rfl, fun _ => rfl, fun _ => rfl,
   fun _ => rfl, fun _ => rfl, rfl⟩

/-- Claim C8: metrics/observability-setup errors are surfaced but non-fatal:
raising a metrics error does not terminate the Runner's loop, while the fatal
invariant-violation errors do terminate it. -/
theorem metrics_error_nonfatal (s : LoopState) (e : PrometheusError) :
    (Error.metrics e).isFatal = false ∧
    (raiseError s (.metrics e)).running = s.running ∧
    (raiseError s (.metrics e)).surfaced = s.surfaced ++ [.metrics e] ∧
    (∀ e' : Error, e'.isInvariantViolation = true →
      (raiseError s e').running = false) := by
  refine ⟨rfl, rfl, rfl, ?_⟩
  intro e' h
  cases e' <;> simp_all [Error.isInvariantViolation, Error.isFatal, raiseError]

/-- Claim C8 witness: a running loop stays running when a metrics error is
raised, and stops when a genesis-invariant violation is raised. -/
theorem metrics_error_nonfatal_witness :
    (raiseError ⟨true, []⟩ (.metrics ⟨1⟩)).running = true ∧
    (raiseError ⟨true, []⟩
      (.cannotRunGenesisOnPreExistingBlockchain hdr0)).running = false := by
  have h := metrics_error_nonfatal ⟨true, []⟩ ⟨1⟩
  exact ⟨by rw [h.2.1], h.2.2.2 (.cannotRunGenesisOnPreExistingBlockchain hdr0) rfl⟩

/-! ## Purse balance properties -/

/-- Claim C10: `get_purse_balance` returns `None` if and only if the host's
`casper_get_balance` call reports `ApiError::InvalidPurse`; on a zero return
code (a successful host call) it returns `Some` of the deserialized `U512`
balance; on any other host error — a non-`InvalidPurse` error code, a failed
host-buffer read, or a failed deserialization — it reverts rather than
returning; and `get_balance` is definitionally `get_purse_balance` applied to
the account's main purse. -/
theorem purse_balance_spec (host : BalanceHost) (purse : URef) :
    (get_purse_balance host purse = .returned none ↔
      host.casper_get_balance purse = .error .invalidPurse) ∧
    (∀ sz bytes v, host.casper_get_balance purse = .ok sz →
      host.read_host_buffer sz = .ok bytes →
      host.deserializeU512 bytes = .ok v →
      get_purse_balance host purse = .returned (some v)) ∧
    (∀ sz e, host.casper_get_balance purse = .ok sz →
      host.read_host_buffer sz = .error e →
      get_purse_balance host purse = .reverted e) ∧
    (∀ sz bytes e, host.casper_get_balance purse = .ok sz →
      host.read_host_buffer sz = .ok bytes →
      host.deserializeU512 bytes = .error e →
      get_purse_balance host purse = .reverted e) ∧
    (∀ code, host.casper_get_balance purse = .error (.otherError code) →
      get_purse_balance host purse = .reverted (.otherError code)) ∧
    get_balance host = get_purse_balance host host.get_main_purse := by
  refine ⟨⟨?_, ?_⟩, ?_, ?_, ?_, ?_, rfl⟩
  · intro h
    cases hg : host.casper_get_balance purse with
    | ok sz =>
        cases hr : host.read_host_buffer sz with
        | ok bytes =>
            cases hd : host.deserializeU512 bytes with
            | ok v => simp [get_purse_balance, hg, hr, hd] at h
            | error e => simp [get_purse_balance, hg, hr, hd] at h
        | error e => simp [get_purse_balance, hg, hr] at h
    | error e =>
        cases e with
        | invalidPurse => rfl
        | otherError c => simp [get_purse_balance, hg] at h
  · intro h
    simp [get_purse_balance, h]
  · intro sz bytes v hg hr hd
    simp [get_purse_balance, hg, hr, hd]
  · intro sz e hg hr
    simp [get_purse_balance, hg, hr]
  · intro sz bytes e hg hr hd
    simp [get_purse_balance, hg, hr, hd]
  · intro code hg
    simp [get_purse_balance, hg]

/-- Claim C10 witness: the all-successful host yields the deserialized balance
through the main purse, and the invalid-purse host yields `None`. -/
theorem purse_balance_spec_witness :
    get_balance hostOk = .returned (some ⟨42⟩) ∧
    get_purse_balance hostInvalid ⟨5⟩ = .returned none := by
  constructor
  · have h := purse_balance_spec hostOk hostOk.get_main_purse
    rw [h.2.2.2.2.2]
    exact h.2.1 4 [4] ⟨42⟩ rfl rfl rfl
  · exact (purse_balance_spec hostInvalid ⟨5⟩).1.mpr rfl

end CasperNode
